import Mathlib

/-!
Shallow embedding of the tree-sitter-rpmspec external scanners
(the main scanner in `src/scanner.c` and the bash-wrapping companion in
`rpmbash/src/scanner.c`).

The tree-sitter lexer is modelled as the list of not-yet-consumed
characters; where a claim is about token boundaries, character offsets
from the start of the scan are tracked explicitly (`mark_end` is modelled
as recording the current offset).  Loops of the C code become fuel-indexed
structural recursions; every loop iteration of the C code consumes at
least one input character, so fuel `input.length + 1` is always enough.
-/

/- ===================================================================== -/
/- Character classes (scanner.c helper functions)                        -/
/- ===================================================================== -/

/-- Model of `is_identifier_start`: letter or underscore. -/
def is_identifier_start (c : Char) : Bool :=
  ('a' ≤ c && c ≤ 'z') || ('A' ≤ c && c ≤ 'Z') || c = '_'

/-- Model of C `isdigit` restricted to the scanner's ASCII usage. -/
def isDigitC (c : Char) : Bool :=
  '0' ≤ c && c ≤ '9'

/-- Model of `is_identifier_char`. -/
def is_identifier_char (c : Char) : Bool :=
  is_identifier_start c || isDigitC c

/-- Model of `is_macro_start`: characters that can start a macro after `%`. -/
def is_macro_start (c : Char) : Bool :=
  c = '%' || c = '{' || c = '(' || c = '[' || c = '!' ||
  c = '?' || c = '*' || c = '#' || is_identifier_start c || isDigitC c

/-- Model of `is_horizontal_space`: space or tab. -/
def is_horizontal_space (c : Char) : Bool :=
  c = ' ' || c = '\t'

/-- Model of C `isspace`: the six standard white-space characters. -/
def isSpaceC (c : Char) : Bool :=
  c = ' ' || c = '\t' || c = '\n' || c = '\r' || c = '\x0b' || c = '\x0c'

/- ===================================================================== -/
/- Keyword tables                                                        -/
/- ===================================================================== -/

/-- The `KEYWORDS` table of scanner.c. -/
def KEYWORDS : List String :=
  ["if", "elif", "else", "endif", "ifarch", "ifnarch", "elifarch",
   "ifos", "ifnos", "elifos",
   "define", "global", "undefine",
   "setup", "autosetup", "patch", "autopatch",
   "echo", "error", "expand", "getenv", "getncpus", "len", "lower",
   "macrobody", "quote", "reverse", "shescape", "shrink", "upper",
   "verbose", "warn",
   "basename", "dirname", "exists", "load", "suffix", "uncompress",
   "url2path", "u2p",
   "gsub", "sub", "rep",
   "dnl", "dump", "rpmversion", "trace",
   "expr", "lua"]

/-- The `SUBSECTION_KEYWORDS` table of scanner.c. -/
def SUBSECTION_KEYWORDS : List String :=
  ["package", "description", "sourcelist", "patchlist", "changelog"]

/-- The `SCRIPTLET_KEYWORDS` table of scanner.c. -/
def SCRIPTLET_KEYWORDS : List String :=
  ["prep", "generate_buildrequires", "conf", "build", "install", "check",
   "clean",
   "pre", "post", "preun", "postun", "pretrans", "posttrans",
   "preuntrans", "postuntrans",
   "triggerin", "triggerun", "triggerpostun", "triggerprein",
   "filetriggerin", "filetriggerun", "filetriggerpostun",
   "transfiletriggerin", "transfiletriggerun", "transfiletriggerpostun"]

/-- The `FILES_KEYWORDS` table of scanner.c. -/
def FILES_KEYWORDS : List String :=
  ["defattr", "attr", "config", "doc", "docdir", "dir", "license",
   "verify", "ghost", "exclude", "artifact", "missingok", "readme"]

/-- Model of `matches_keyword_array`: the C code compares length first and
then the characters, which is exactly list equality. -/
def matches_keyword_array (s : List Char) (kws : List String) : Bool :=
  kws.any fun k => decide (k.data = s)

/-- Model of `strequal`. -/
def strequal (lit : String) (s : List Char) : Bool :=
  decide (lit.data = s)

/-- Model of `is_nil`. -/
def is_nil (s : List Char) : Bool :=
  strequal "nil" s

/-- Model of `is_patch_legacy` as invoked by the scanner: the C function
receives a 64-byte buffer holding at most the first 63 identifier
characters together with the exact length.  For a length of at most 63 the
buffer holds the whole identifier; for longer identifiers the digit loop
hits the NUL terminator stored at index 63 and returns false, hence the
`length ≤ 63` conjunct. -/
def is_patch_legacy (s : List Char) : Bool :=
  decide (6 ≤ s.length) && decide (s.length ≤ 63) &&
  decide (s.take 5 = "patch".data) && (s.drop 5).all isDigitC

/-- Model of `is_scriptlet_keyword`. -/
def is_scriptlet_keyword (s : List Char) : Bool :=
  matches_keyword_array s SCRIPTLET_KEYWORDS

/-- Model of `is_subsection_keyword`. -/
def is_subsection_keyword (s : List Char) : Bool :=
  matches_keyword_array s SUBSECTION_KEYWORDS

/-- Model of `is_section_keyword`. -/
def is_section_keyword (s : List Char) : Bool :=
  is_subsection_keyword s || is_scriptlet_keyword s || strequal "files" s

/-- Model of `is_keyword`. -/
def is_keyword (s : List Char) : Bool :=
  matches_keyword_array s KEYWORDS ||
  matches_keyword_array s SUBSECTION_KEYWORDS ||
  matches_keyword_array s SCRIPTLET_KEYWORDS ||
  strequal "files" s

/-- Model of `is_files_keyword`. -/
def is_files_keyword (s : List Char) : Bool :=
  matches_keyword_array s FILES_KEYWORDS

/- ===================================================================== -/
/- Token kinds and scanner state                                         -/
/- ===================================================================== -/

/-- The `TokenType` enumeration of scanner.c. -/
inductive TokenType where
  | SIMPLE_MACRO
  | PARAMETRIC_MACRO_NAME
  | NEGATED_MACRO
  | SPECIAL_MACRO
  | ESCAPED_PERCENT
  | TOP_LEVEL_IF
  | TOP_LEVEL_IFARCH
  | TOP_LEVEL_IFNARCH
  | TOP_LEVEL_IFOS
  | TOP_LEVEL_IFNOS
  | SUBSECTION_IF
  | SUBSECTION_IFARCH
  | SUBSECTION_IFNARCH
  | SUBSECTION_IFOS
  | SUBSECTION_IFNOS
  | SCRIPTLET_IF
  | SCRIPTLET_IFARCH
  | SCRIPTLET_IFNARCH
  | SCRIPTLET_IFOS
  | SCRIPTLET_IFNOS
  | FILES_IF
  | FILES_IFARCH
  | FILES_IFNARCH
  | FILES_IFOS
  | FILES_IFNOS
  | EXPAND_CODE
  | SCRIPT_CODE
  | SECTION_PREP
  | SECTION_GENERATE_BUILDREQUIRES
  | SECTION_CONF
  | SECTION_BUILD
  | SECTION_INSTALL
  | SECTION_CHECK
  | SECTION_CLEAN
  | NEWLINE
  deriving DecidableEq, Repr

/-- The `struct Scanner` state: the lookahead-result cache. -/
structure Scanner where
  lookahead_cache_valid : Bool
  lookahead_has_section : Bool
  deriving DecidableEq, Repr

/-- The admissible-kind set (`valid_symbols` array). -/
def Valids : Type := TokenType → Bool

/- ===================================================================== -/
/- Serialization (rpmspec_serialize / rpmspec_deserialize)               -/
/- ===================================================================== -/

/-- `TREE_SITTER_SERIALIZATION_BUFFER_SIZE` from tree-sitter's parser.h. -/
def TREE_SITTER_SERIALIZATION_BUFFER_SIZE : Nat := 1024

/-- Model of `rpmspec_serialize`: two bytes, one per cache flag. -/
def rpmspec_serialize (s : Scanner) : List Nat :=
  if 2 > TREE_SITTER_SERIALIZATION_BUFFER_SIZE then []
  else [(if s.lookahead_cache_valid then 1 else 0),
        (if s.lookahead_has_section then 1 else 0)]

/-- Model of `rpmspec_deserialize`: reset on a short payload, else restore
the two flags from the first two bytes. -/
def rpmspec_deserialize (bs : List Nat) : Scanner :=
  if bs.length < 2 then ⟨false, false⟩
  else ⟨decide (bs.headD 0 ≠ 0), decide ((bs.drop 1).headD 0 ≠ 0)⟩

/- ===================================================================== -/
/- Macro matcher (scan_macro')                                            -/
/- ===================================================================== -/

/-- Model of `scan_macro'`: classify the characters following an already
consumed `%` prefix.  Returns the emitted kind together with the length of
the committed token (distance of the final `mark_end` from the start), or
`none` when the matcher declines.  End-of-input lookahead is modelled as
the NUL character, which satisfies none of the character classes, exactly
as in C where `lexer->lookahead` is `0` at EOF. -/
def scan_macro' (v : Valids) (l : List Char) : Option (TokenType × Nat) :=
  match l with
  | [] => none
  | c :: cs =>
    if c = '%' then
      if v .ESCAPED_PERCENT then some (.ESCAPED_PERCENT, 1) else none
    else if c = '!' then
      if v .NEGATED_MACRO then
        if cs.headD '\x00' = '?' then none
        else if is_identifier_start (cs.headD '\x00') then
          some (.NEGATED_MACRO, 1 + (cs.takeWhile is_identifier_char).length)
        else none
      else none
    else if c = '*' then
      if v .SPECIAL_MACRO then
        some (.SPECIAL_MACRO, if cs.headD '\x00' = '*' then 2 else 1)
      else none
    else if c = '#' then
      if v .SPECIAL_MACRO then some (.SPECIAL_MACRO, 1) else none
    else if isDigitC c then
      if v .SPECIAL_MACRO then
        some (.SPECIAL_MACRO, ((c :: cs).takeWhile isDigitC).length)
      else none
    else if is_identifier_start c then
      if v .SIMPLE_MACRO then
        let id := (c :: cs).takeWhile is_identifier_char
        if is_keyword id then none
        else if is_patch_legacy id then none
        else if is_nil id then
          if v .SPECIAL_MACRO then some (.SPECIAL_MACRO, id.length) else none
        else some (.SIMPLE_MACRO, id.length)
      else none
    else none

/-- The admissible set with every kind admissible. -/
def allMacroValids : Valids := fun _ => true

/- ===================================================================== -/
/- Theorems: C9 and C6                                                   -/
/- ===================================================================== -/

/-- C9: for every scanner state, `serialize` emits exactly 2 bytes and
`deserialize` of those bytes restores the original state; `deserialize`
of any payload shorter than 2 bytes resets the state to (false, false). -/
theorem C9_serialize_roundtrip :
    (∀ s : Scanner,
      (rpmspec_serialize s).length = 2 ∧
      rpmspec_deserialize (rpmspec_serialize s) = s) ∧
    (∀ bs : List Nat, bs.length < 2 → rpmspec_deserialize bs = ⟨false, false⟩) := by
  constructor
  · intro s
    obtain ⟨a, b⟩ := s
    cases a <;> cases b <;> exact ⟨by decide, by decide⟩
  · intro bs h
    match bs with
    | [] => rfl
    | [x] => simp [rpmspec_deserialize]
    | x :: y :: t =>
      exfalso
      simp only [List.length_cons] at h
      omega

/-- C9 witness: the round-trip and the short-payload reset at concrete
inputs. -/
theorem C9_serialize_roundtrip_witness :
    ([] : List Nat).length < 2 ∧ rpmspec_deserialize [] = ⟨false, false⟩ :=
  ⟨by decide, C9_serialize_roundtrip.2 [] (by decide)⟩

/-- C6: the macro matcher declines `define` (reserved keyword) and
`patch0123` (legacy patch pattern); `nil` is emitted as special-macro and
never as simple-macro (for every admissible set); `!foo` is emitted as
negated-macro spanning all of `!foo`; `!?x` declines. -/
theorem C6_macro_matcher_cases :
    scan_macro' allMacroValids ("define".data) = none ∧
    scan_macro' allMacroValids ("patch0123".data) = none ∧
    (∀ v : Valids, scan_macro' v ("nil".data) =
      if v .SIMPLE_MACRO && v .SPECIAL_MACRO then
        some (.SPECIAL_MACRO, 3)
      else none) ∧
    scan_macro' allMacroValids ("!foo".data) = some (.NEGATED_MACRO, 4) ∧
    scan_macro' allMacroValids ("!?x".data) = none := by
  refine ⟨by decide, by decide, ?_, by decide, by decide⟩
  intro v
  cases h1 : v .SIMPLE_MACRO <;> cases h2 : v .SPECIAL_MACRO <;>
    simp [scan_macro', h1, h2, is_keyword, is_patch_legacy, is_nil,
          matches_keyword_array, strequal, KEYWORDS, SUBSECTION_KEYWORDS,
          SCRIPTLET_KEYWORDS, is_identifier_start, is_identifier_char,
          isDigitC, List.takeWhile]

/- ===================================================================== -/
/- Balanced-content scanners (scan_expand_content / scan_shell_content)  -/
/- ===================================================================== -/

/-- Fuel-indexed model of the loop of `scan_expand_content`.  The state is
the remaining input, the brace nesting depth, the `has_content` flag, the
current cursor offset `pos` and the last committed boundary `marked`.
The result is the pair (`has_content`, final committed boundary). -/
def scanExpandLoop : Nat → List Char → Int → Bool → Nat → Nat → Bool × Nat
  | 0, _, _, hc, _, marked => (hc, marked)
  | _ + 1, [], _, hc, _, marked => (hc, marked)
  | fuel + 1, c :: cs, depth, hc, pos, marked =>
    if c = '%' then
      match cs with
      | [] => (true, pos + 1)
      | d :: ds =>
        if d = '%' || d = '#' || d = '*' then
          scanExpandLoop fuel ds depth true (pos + 2) (pos + 2)
        else if d = '{' then
          (hc, pos)
        else if isDigitC d then
          let k := ((d :: ds).takeWhile isDigitC).length
          scanExpandLoop fuel ((d :: ds).dropWhile isDigitC) depth true
            (pos + 1 + k) (pos + 1 + k)
        else
          scanExpandLoop fuel (d :: ds) depth true (pos + 1) (pos + 1)
    else if c = '{' then
      scanExpandLoop fuel cs (depth + 1) true (pos + 1) (pos + 1)
    else if c = '}' then
      if depth = 0 then (hc, marked)
      else scanExpandLoop fuel cs (depth - 1) true (pos + 1) (pos + 1)
    else
      scanExpandLoop fuel cs depth true (pos + 1) (pos + 1)

/-- Model of `scan_expand_content`: whether any content was captured, and
the committed length of the content token. -/
def scan_expand_content (l : List Char) : Bool × Nat :=
  scanExpandLoop (l.length + 1) l 0 false 0 0

/-- Fuel-indexed model of the loop of `scan_shell_content`; same state as
`scanExpandLoop` but tracking parenthesis depth. -/
def scanShellLoop : Nat → List Char → Int → Bool → Nat → Nat → Bool × Nat
  | 0, _, _, hc, _, marked => (hc, marked)
  | _ + 1, [], _, hc, _, marked => (hc, marked)
  | fuel + 1, c :: cs, depth, hc, pos, marked =>
    if c = '%' then
      match cs with
      | [] => (true, pos + 1)
      | d :: ds =>
        if is_macro_start d then (hc, pos)
        else scanShellLoop fuel (d :: ds) depth true (pos + 1) (pos + 1)
    else if c = '(' then
      scanShellLoop fuel cs (depth + 1) true (pos + 1) (pos + 1)
    else if c = ')' then
      if depth = 0 then (hc, marked)
      else scanShellLoop fuel cs (depth - 1) true (pos + 1) (pos + 1)
    else
      scanShellLoop fuel cs depth true (pos + 1) (pos + 1)

/-- Model of `scan_shell_content`. -/
def scan_shell_content (l : List Char) : Bool × Nat :=
  scanShellLoop (l.length + 1) l 0 false 0 0

/-- C7: the expand-block content scanner stops before the zero-depth
closing brace and before `%{`; the sequences `%%`, `%#`, `%*` and `%` +
digits are consumed as literal content; nested braces are tracked by
depth; and on the body of `%\x7bexpand: a \x7bb\x7d c\x7d` the captured
span is ` a \x7bb\x7d c` of length 8, ending exactly before the outer
closing brace. -/
theorem C7_expand_content :
    (∀ fuel cs depth hc pos marked,
      scanExpandLoop (fuel + 1) ('%' :: '{' :: cs) depth hc pos marked =
        (hc, pos)) ∧
    (∀ fuel cs depth hc pos marked,
      scanExpandLoop (fuel + 1) ('%' :: '%' :: cs) depth hc pos marked =
        scanExpandLoop fuel cs depth true (pos + 2) (pos + 2)) ∧
    (∀ fuel cs depth hc pos marked,
      scanExpandLoop (fuel + 1) ('%' :: '#' :: cs) depth hc pos marked =
        scanExpandLoop fuel cs depth true (pos + 2) (pos + 2)) ∧
    (∀ fuel cs depth hc pos marked,
      scanExpandLoop (fuel + 1) ('%' :: '*' :: cs) depth hc pos marked =
        scanExpandLoop fuel cs depth true (pos + 2) (pos + 2)) ∧
    (∀ fuel d ds depth hc pos marked, isDigitC d = true →
      scanExpandLoop (fuel + 1) ('%' :: d :: ds) depth hc pos marked =
        scanExpandLoop fuel ((d :: ds).dropWhile isDigitC) depth true
          (pos + 1 + ((d :: ds).takeWhile isDigitC).length)
          (pos + 1 + ((d :: ds).takeWhile isDigitC).length)) ∧
    (∀ fuel cs hc pos marked,
      scanExpandLoop (fuel + 1) ('}' :: cs) 0 hc pos marked = (hc, marked)) ∧
    (∀ fuel cs depth hc pos marked,
      scanExpandLoop (fuel + 1) ('{' :: cs) depth hc pos marked =
        scanExpandLoop fuel cs (depth + 1) true (pos + 1) (pos + 1)) ∧
    scan_expand_content
      [' ', 'a', ' ', '{', 'b', '}', ' ', 'c', '}'] = (true, 8) ∧
    scan_expand_content
      ['a', 'b', '%', '{', 'x', '}'] = (true, 2) := by
  refine ⟨?_, ?_, ?_, ?_, ?_, ?_, ?_, by decide, by decide⟩
  · intro fuel cs depth hc pos marked; rfl
  · intro fuel cs depth hc pos marked; rfl
  · intro fuel cs depth hc pos marked; rfl
  · intro fuel cs depth hc pos marked; rfl
  · intro fuel d ds depth hc pos marked h
    have hp : d ≠ '%' := fun h' => by subst h'; simp [isDigitC] at h
    have hh : d ≠ '#' := fun h' => by subst h'; simp [isDigitC] at h
    have hs : d ≠ '*' := fun h' => by subst h'; simp [isDigitC] at h
    have hb : d ≠ '{' := fun h' => by subst h'; simp [isDigitC] at h
    simp [scanExpandLoop, h, hp, hh, hs, hb]
  · intro fuel cs hc pos marked; rfl
  · intro fuel cs depth hc pos marked; rfl

/-- C7 witness: the digit-consumption conjunct at a concrete input. -/
theorem C7_expand_content_witness :
    isDigitC '1' = true ∧
    scanExpandLoop 1 ['%', '1'] 0 false 0 0 =
      scanExpandLoop 0 ((['1'] : List Char).dropWhile isDigitC) 0 true
        (0 + 1 + ((['1'] : List Char).takeWhile isDigitC).length)
        (0 + 1 + ((['1'] : List Char).takeWhile isDigitC).length) :=
  ⟨by decide, C7_expand_content.2.2.2.2.1 0 '1' [] 0 false 0 0 (by decide)⟩

/-- C8: in the shell-block content scanner a `%` ends the content span
(before the `%`) exactly when the next character is a macro-introducer
character, and otherwise the `%` is consumed as ordinary content;
`is_macro_start` holds exactly for letters/underscore, digits, and the
characters `%`, `\x7b`, `(`, `[`, `!`, `?`, `*`, `#`; in particular the
body `echo $\x7bvar%.*\x7d` followed by the closing parenthesis is
captured whole, the lone `%` included. -/
theorem C8_shell_percent_boundary :
    (∀ fuel c cs depth hc pos marked,
      scanShellLoop (fuel + 1) ('%' :: c :: cs) depth hc pos marked =
        if is_macro_start c then (hc, pos)
        else scanShellLoop fuel (c :: cs) depth true (pos + 1) (pos + 1)) ∧
    (∀ c : Char, is_macro_start c =
      (is_identifier_start c || isDigitC c || c = '%' || c = '{' ||
       c = '(' || c = '[' || c = '!' || c = '?' || c = '*' || c = '#')) ∧
    scan_shell_content
      ['e', 'c', 'h', 'o', ' ', '$', '{', 'v', 'a', 'r', '%', '.', '*',
       '}', ')'] = (true, 14) := by
  refine ⟨?_, ?_, by decide⟩
  · intro fuel c cs depth hc pos marked
    cases h : is_macro_start c <;> simp [scanShellLoop, h]
  · intro c
    by_cases h1 : is_identifier_start c = true <;>
      by_cases h2 : isDigitC c = true <;>
        simp [is_macro_start, h1, h2]

/- ===================================================================== -/
/- Section-keyword lookahead (conditional_body_has_section)              -/
/- ===================================================================== -/

/-- `MAX_LOOKAHEAD_LINES` from scanner.c. -/
def MAX_LOOKAHEAD_LINES : Nat := 2000

/-- Model of the identifier-buffering loop of
`conditional_body_has_section`: read identifier characters while the
buffer (31 usable bytes) has room, returning the buffered identifier and
the rest of the input. -/
def readIdentBounded : Nat → List Char → List Char × List Char
  | _, [] => ([], [])
  | cap, c :: cs =>
    if is_identifier_char c && decide (0 < cap) then
      let p := readIdentBounded (cap - 1) cs
      (c :: p.1, p.2)
    else ([], c :: cs)

/-- Fuel-indexed model of the scanning loop of
`conditional_body_has_section`.  State: remaining input, conditional
nesting depth, number of lines scanned, and the at-line-start flag. -/
def hasSectionLoop : Nat → List Char → Int → Nat → Bool → Bool
  | 0, _, _, _, _ => false
  | _ + 1, [], _, _, _ => false
  | fuel + 1, c :: cs, nesting, lines, at_line_start =>
    if MAX_LOOKAHEAD_LINES ≤ lines then false
    else if c = '\r' || c = '\n' then
      hasSectionLoop fuel
        (if c = '\r' && (cs.headD '\x00' = '\n' : Bool) then cs.tail else cs)
        nesting (lines + 1) true
    else if c = ' ' || c = '\t' then
      hasSectionLoop fuel cs nesting lines at_line_start
    else if c = '%' && at_line_start then
      let p := readIdentBounded 31 cs
      if p.1.length = 0 then hasSectionLoop fuel p.2 nesting lines false
      else if strequal "endif" p.1 then
        if nesting - 1 = 0 then false
        else hasSectionLoop fuel p.2 (nesting - 1) lines false
      else if strequal "if" p.1 || strequal "ifarch" p.1 ||
              strequal "ifnarch" p.1 || strequal "ifos" p.1 ||
              strequal "ifnos" p.1 then
        hasSectionLoop fuel p.2 (nesting + 1) lines false
      else if is_section_keyword p.1 then true
      else hasSectionLoop fuel p.2 nesting lines false
    else hasSectionLoop fuel cs nesting lines false

/-- Model of `conditional_body_has_section`: the nesting counter starts at
1 (the scan begins already inside one conditional opener).  Every loop
iteration of the C code consumes at least one character, so fuel
`l.length + 1` never runs out before the input does. -/
def conditional_body_has_section (l : List Char) : Bool :=
  hasSectionLoop (l.length + 1) l 1 0 true

/-- Helper: the identifier-buffering loop splits an input that starts with
a run of identifier characters fitting in the buffer, followed by a
non-identifier character (or nothing). -/
lemma readIdentBounded_append (pre : List Char) :
    ∀ cap rest, pre.all is_identifier_char = true → pre.length ≤ cap →
      is_identifier_char (rest.headD '\n') = false →
      readIdentBounded cap (pre ++ rest) = (pre, rest) := by
  induction pre with
  | nil =>
    intro cap rest _ _ h3
    cases rest with
    | nil => cases cap <;> rfl
    | cons c cs =>
      simp only [List.headD_cons] at h3
      simp [readIdentBounded, h3]
  | cons c pre ih =>
    intro cap rest h1 h2 h3
    simp only [List.all_cons, Bool.and_eq_true] at h1
    cases cap with
    | zero => simp at h2
    | succ cap =>
      simp only [List.cons_append, readIdentBounded, h1.1, true_and]
      simp [ih cap rest h1.2 (by simpa using h2) h3]

/-- Helper: one lookahead-loop step over a space character. -/
lemma hsl_space (fuel : Nat) (cs : List Char) (n : Int) (lines : Nat)
    (als : Bool) (h : lines < MAX_LOOKAHEAD_LINES) :
    hasSectionLoop (fuel + 1) (' ' :: cs) n lines als =
      hasSectionLoop fuel cs n lines als := by
  simp [hasSectionLoop, Nat.not_le.mpr h]

/-- Helper: one lookahead-loop step over a newline character. -/
lemma hsl_newline (fuel : Nat) (cs : List Char) (n : Int) (lines : Nat)
    (als : Bool) (h : lines < MAX_LOOKAHEAD_LINES) :
    hasSectionLoop (fuel + 1) ('\n' :: cs) n lines als =
      hasSectionLoop fuel cs n (lines + 1) true := by
  simp [hasSectionLoop, Nat.not_le.mpr h]

/-- Helper: one lookahead-loop step over an ordinary character. -/
lemma hsl_other (fuel : Nat) (c : Char) (cs : List Char) (n : Int)
    (lines : Nat) (als : Bool) (h : lines < MAX_LOOKAHEAD_LINES)
    (h1 : c ≠ '\r') (h2 : c ≠ '\n') (h3 : c ≠ ' ') (h4 : c ≠ '\t')
    (h5 : (decide (c = '%') && als) = false) :
    hasSectionLoop (fuel + 1) (c :: cs) n lines als =
      hasSectionLoop fuel cs n lines false := by
  simp [hasSectionLoop, Nat.not_le.mpr h, h1, h2, h3, h4, h5]

/-- Helper: a conditional opener keyword at line start increments the
nesting counter. -/
lemma hsl_opener (kw : String)
    (hkw : kw ∈ (["if", "ifarch", "ifnarch", "ifos", "ifnos"] : List String))
    (fuel : Nat) (rest : List Char) (n : Int) (lines : Nat)
    (h : lines < MAX_LOOKAHEAD_LINES)
    (hrest : is_identifier_char (rest.headD '\n') = false) :
    hasSectionLoop (fuel + 1) ('%' :: (kw.data ++ rest)) n lines true =
      hasSectionLoop fuel rest (n + 1) lines false := by
  fin_cases hkw
  · have hR : readIdentBounded 31 ('i' :: 'f' :: rest) = (['i', 'f'], rest) :=
      readIdentBounded_append ['i', 'f'] 31 rest (by decide) (by decide) hrest
    simp [hasSectionLoop, Nat.not_le.mpr h, hR, strequal]
  · have hR : readIdentBounded 31 ('i' :: 'f' :: 'a' :: 'r' :: 'c' :: 'h' :: rest) =
        (['i', 'f', 'a', 'r', 'c', 'h'], rest) :=
      readIdentBounded_append ['i', 'f', 'a', 'r', 'c', 'h'] 31 rest
        (by decide) (by decide) hrest
    simp [hasSectionLoop, Nat.not_le.mpr h, hR, strequal]
  · have hR : readIdentBounded 31 ('i' :: 'f' :: 'n' :: 'a' :: 'r' :: 'c' :: 'h' :: rest) =
        (['i', 'f', 'n', 'a', 'r', 'c', 'h'], rest) :=
      readIdentBounded_append ['i', 'f', 'n', 'a', 'r', 'c', 'h'] 31 rest
        (by decide) (by decide) hrest
    simp [hasSectionLoop, Nat.not_le.mpr h, hR, strequal]
  · have hR : readIdentBounded 31 ('i' :: 'f' :: 'o' :: 's' :: rest) =
        (['i', 'f', 'o', 's'], rest) :=
      readIdentBounded_append ['i', 'f', 'o', 's'] 31 rest
        (by decide) (by decide) hrest
    simp [hasSectionLoop, Nat.not_le.mpr h, hR, strequal]
  · have hR : readIdentBounded 31 ('i' :: 'f' :: 'n' :: 'o' :: 's' :: rest) =
        (['i', 'f', 'n', 'o', 's'], rest) :=
      readIdentBounded_append ['i', 'f', 'n', 'o', 's'] 31 rest
        (by decide) (by decide) hrest
    simp [hasSectionLoop, Nat.not_le.mpr h, hR, strequal]

/-- Helper: `endif` at line start decrements the nesting counter and
terminates the scan exactly when the counter reaches zero. -/
lemma hsl_closer (fuel : Nat) (rest : List Char) (n : Int) (lines : Nat)
    (h : lines < MAX_LOOKAHEAD_LINES)
    (hrest : is_identifier_char (rest.headD '\n') = false) :
    hasSectionLoop (fuel + 1) ('%' :: ("endif".data ++ rest)) n lines true =
      if n - 1 = 0 then false
      else hasSectionLoop fuel rest (n - 1) lines false := by
  have hR : readIdentBounded 31 ('e' :: 'n' :: 'd' :: 'i' :: 'f' :: rest) =
      (['e', 'n', 'd', 'i', 'f'], rest) :=
    readIdentBounded_append ['e', 'n', 'd', 'i', 'f'] 31 rest
      (by decide) (by decide) hrest
  by_cases hn : n - 1 = 0 <;>
    simp [hasSectionLoop, Nat.not_le.mpr h, hR, strequal, hn]

/-- Helper: once the scanned-line counter has reached the cap, the
lookahead reports "not found". -/
lemma hsl_cap (fuel : Nat) (l : List Char) (n : Int) (lines : Nat)
    (als : Bool) (h : MAX_LOOKAHEAD_LINES ≤ lines) :
    hasSectionLoop fuel l n lines als = false := by
  match fuel, l with
  | 0, _ => rfl
  | _ + 1, [] => rfl
  | fuel + 1, c :: cs => simp [hasSectionLoop, h]

/-- Helper: a run of blank lines long enough to reach the line cap makes
the lookahead report "not found" regardless of what follows. -/
lemma hsl_nl_run : ∀ (k fuel : Nat) (n : Int) (lines : Nat) (als : Bool)
    (cs : List Char), MAX_LOOKAHEAD_LINES ≤ lines + k →
    hasSectionLoop fuel (List.replicate k '\n' ++ cs) n lines als = false := by
  intro k
  induction k with
  | zero =>
    intro fuel n lines als cs h
    exact hsl_cap fuel _ n lines als (by simpa using h)
  | succ k ih =>
    intro fuel n lines als cs h
    match fuel with
    | 0 => rfl
    | fuel + 1 =>
      rw [List.replicate_succ, List.cons_append]
      by_cases hl : MAX_LOOKAHEAD_LINES ≤ lines
      · exact hsl_cap _ _ _ _ _ hl
      · rw [hsl_newline fuel _ n lines als (by omega)]
        exact ih fuel n (lines + 1) true cs (by omega)

/-- C2: the forward lookahead starts its nesting counter at 1; every
further conditional opener at line start increments it; a closing `endif`
directive decrements it and reports "no section found" exactly when the
counter reaches 0; and on the body following the outer conditional of
`%if A %if B %endif %endif` (one directive per line) the counter steps
from 1 to 2 at the inner opener, back to 1 at the inner `%endif` (which
does not terminate the scan), and the scan reports only at the second
`%endif`, where the counter reaches 0. -/
theorem C2_lookahead_nesting :
    (∀ l : List Char,
      conditional_body_has_section l = hasSectionLoop (l.length + 1) l 1 0 true) ∧
    (∀ kw : String,
      kw ∈ (["if", "ifarch", "ifnarch", "ifos", "ifnos"] : List String) →
      ∀ (fuel : Nat) (rest : List Char) (n : Int) (lines : Nat),
        lines < MAX_LOOKAHEAD_LINES →
        is_identifier_char (rest.headD '\n') = false →
        hasSectionLoop (fuel + 1) ('%' :: (kw.data ++ rest)) n lines true =
          hasSectionLoop fuel rest (n + 1) lines false) ∧
    (∀ (fuel : Nat) (rest : List Char) (n : Int) (lines : Nat),
      lines < MAX_LOOKAHEAD_LINES →
      is_identifier_char (rest.headD '\n') = false →
      hasSectionLoop (fuel + 1) ('%' :: ("endif".data ++ rest)) n lines true =
        if n - 1 = 0 then false
        else hasSectionLoop fuel rest (n - 1) lines false) ∧
    (∀ (fuel : Nat) (n : Int),
      hasSectionLoop (fuel + 4)
        (' ' :: 'A' :: '\n' :: '%' ::
          ("if".data ++ (' ' :: 'B' :: '\n' :: '%' ::
            ("endif".data ++ ('\n' :: '%' :: "endif".data))))) n 0 true =
      hasSectionLoop fuel
        (' ' :: 'B' :: '\n' :: '%' ::
          ("endif".data ++ ('\n' :: '%' :: "endif".data)))
        (n + 1) 1 false) ∧
    (∀ (fuel : Nat) (n : Int),
      hasSectionLoop (fuel + 4)
        (' ' :: 'B' :: '\n' :: '%' ::
          ("endif".data ++ ('\n' :: '%' :: "endif".data))) n 1 false =
      if n - 1 = 0 then false
      else hasSectionLoop fuel ('\n' :: '%' :: "endif".data) (n - 1) 2 false) ∧
    (∀ (fuel : Nat) (n : Int),
      hasSectionLoop (fuel + 2) ('\n' :: '%' :: "endif".data) n 2 false =
      if n - 1 = 0 then false
      else hasSectionLoop fuel ([] : List Char) (n - 1) 3 false) ∧
    conditional_body_has_section
      (' ' :: 'A' :: '\n' :: '%' ::
        ("if".data ++ (' ' :: 'B' :: '\n' :: '%' ::
          ("endif".data ++ ('\n' :: '%' :: "endif".data))))) = false := by
  have t1 : ∀ (fuel : Nat) (n : Int),
      hasSectionLoop (fuel + 4)
        (' ' :: 'A' :: '\n' :: '%' ::
          ("if".data ++ (' ' :: 'B' :: '\n' :: '%' ::
            ("endif".data ++ ('\n' :: '%' :: "endif".data))))) n 0 true =
      hasSectionLoop fuel
        (' ' :: 'B' :: '\n' :: '%' ::
          ("endif".data ++ ('\n' :: '%' :: "endif".data)))
        (n + 1) 1 false := by
    intro fuel n
    rw [show fuel + 4 = (fuel + 3) + 1 from rfl,
        hsl_space (fuel + 3) _ n 0 true (by decide),
        show fuel + 3 = (fuel + 2) + 1 from rfl,
        hsl_other (fuel + 2) 'A' _ n 0 true (by decide) (by decide) (by decide)
          (by decide) (by decide) (by decide),
        show fuel + 2 = (fuel + 1) + 1 from rfl,
        hsl_newline (fuel + 1) _ n 0 false (by decide)]
    exact hsl_opener "if" (by decide) fuel _ n 1 (by decide) (by decide)
  have t2 : ∀ (fuel : Nat) (n : Int),
      hasSectionLoop (fuel + 4)
        (' ' :: 'B' :: '\n' :: '%' ::
          ("endif".data ++ ('\n' :: '%' :: "endif".data))) n 1 false =
      if n - 1 = 0 then false
      else hasSectionLoop fuel ('\n' :: '%' :: "endif".data) (n - 1) 2 false := by
    intro fuel n
    rw [show fuel + 4 = (fuel + 3) + 1 from rfl,
        hsl_space (fuel + 3) _ n 1 false (by decide),
        show fuel + 3 = (fuel + 2) + 1 from rfl,
        hsl_other (fuel + 2) 'B' _ n 1 false (by decide) (by decide) (by decide)
          (by decide) (by decide) (by decide),
        show fuel + 2 = (fuel + 1) + 1 from rfl,
        hsl_newline (fuel + 1) _ n 1 false (by decide)]
    exact hsl_closer fuel _ n 2 (by decide) (by decide)
  have t3 : ∀ (fuel : Nat) (n : Int),
      hasSectionLoop (fuel + 2) ('\n' :: '%' :: "endif".data) n 2 false =
      if n - 1 = 0 then false
      else hasSectionLoop fuel ([] : List Char) (n - 1) 3 false := by
    intro fuel n
    rw [show fuel + 2 = (fuel + 1) + 1 from rfl,
        hsl_newline (fuel + 1) _ n 2 false (by decide),
        show ('%' :: "endif".data : List Char) =
          '%' :: ("endif".data ++ ([] : List Char)) by simp]
    exact hsl_closer fuel _ n 3 (by decide) (by decide)
  refine ⟨fun l => rfl, hsl_opener, hsl_closer, t1, t2, t3, ?_⟩
  calc conditional_body_has_section
        (' ' :: 'A' :: '\n' :: '%' ::
          ("if".data ++ (' ' :: 'B' :: '\n' :: '%' ::
            ("endif".data ++ ('\n' :: '%' :: "endif".data)))))
      = hasSectionLoop (19 + 4)
          (' ' :: 'A' :: '\n' :: '%' ::
            ("if".data ++ (' ' :: 'B' :: '\n' :: '%' ::
              ("endif".data ++ ('\n' :: '%' :: "endif".data))))) 1 0 true := rfl
    _ = hasSectionLoop 19
          (' ' :: 'B' :: '\n' :: '%' ::
            ("endif".data ++ ('\n' :: '%' :: "endif".data))) (1 + 1) 1 false :=
        t1 19 1
    _ = hasSectionLoop (15 + 4)
          (' ' :: 'B' :: '\n' :: '%' ::
            ("endif".data ++ ('\n' :: '%' :: "endif".data))) 2 1 false := by
        norm_num
    _ = if (2 : Int) - 1 = 0 then false
        else hasSectionLoop 15 ('\n' :: '%' :: "endif".data) (2 - 1) 2 false :=
        t2 15 2
    _ = hasSectionLoop (13 + 2) ('\n' :: '%' :: "endif".data) 1 2 false := by
        norm_num
    _ = if (1 : Int) - 1 = 0 then false
        else hasSectionLoop 13 ([] : List Char) (1 - 1) 3 false := t3 13 1
    _ = false := by norm_num

/-- C2 witness: the closer conjunct at concrete input, showing the scan
terminates exactly when the counter reaches 0. -/
theorem C2_lookahead_nesting_witness :
    (0 : Nat) < MAX_LOOKAHEAD_LINES ∧
    is_identifier_char (([] : List Char).headD '\n') = false ∧
    hasSectionLoop 1 ('%' :: ("endif".data ++ ([] : List Char))) 1 0 true =
      if (1 : Int) - 1 = 0 then false
      else hasSectionLoop 0 ([] : List Char) ((1 : Int) - 1) 0 false :=
  ⟨by decide, by decide,
    C2_lookahead_nesting.2.2.1 0 [] 1 0 (by decide) (by decide)⟩

/-- C4: the lookahead is capped at 2000 scanned lines (reaching the cap
reports "not found"); reaching end-of-input reports "not found"; and on
an input of 2001 blank lines followed by the section keyword `%prep`
(which therefore lies beyond the cap) the lookahead reports false. -/
theorem C4_lookahead_cap :
    (∀ (fuel : Nat) (l : List Char) (n : Int) (lines : Nat) (als : Bool),
      MAX_LOOKAHEAD_LINES ≤ lines →
      hasSectionLoop fuel l n lines als = false) ∧
    (∀ (fuel : Nat) (n : Int) (lines : Nat) (als : Bool),
      hasSectionLoop fuel [] n lines als = false) ∧
    conditional_body_has_section
      (List.replicate 2001 '\n' ++ "%prep".data) = false := by
  refine ⟨hsl_cap, ?_, ?_⟩
  · intro fuel n lines als
    cases fuel <;> rfl
  · show hasSectionLoop _ _ 1 0 true = false
    exact hsl_nl_run 2001 _ 1 0 true _ (by norm_num [MAX_LOOKAHEAD_LINES])

/-- C4 witness: the cap conjunct applied at a concrete state that has
already scanned 2000 lines. -/
theorem C4_lookahead_cap_witness :
    MAX_LOOKAHEAD_LINES ≤ 2000 ∧
    hasSectionLoop 1 ['a'] 1 2000 true = false :=
  ⟨by decide, C4_lookahead_cap.1 1 ['a'] 1 2000 true (by decide)⟩

/- ===================================================================== -/
/- Conditional classifier (select_conditional_token_type)                -/
/- ===================================================================== -/

/-- Model of `conditional_body_has_section_cached`: consult the cache if
valid, else scan and populate it.  Returns the boolean together with the
updated scanner state. -/
def conditional_body_has_section_cached (s : Scanner) (l : List Char) :
    Bool × Scanner :=
  if s.lookahead_cache_valid then (s.lookahead_has_section, s)
  else
    let r := conditional_body_has_section l
    (r, ⟨true, r⟩)

/-- The `struct CondTokens` of scanner.c: the four context variants of a
conditional keyword together with their validity flags. -/
structure CondTokens where
  top : TokenType
  subsection : TokenType
  scriptlet : TokenType
  files : TokenType
  top_valid : Bool
  subsection_valid : Bool
  scriptlet_valid : Bool
  files_valid : Bool
  deriving DecidableEq, Repr

/-- The `struct CondKeyword` of scanner.c. -/
structure CondKeyword where
  name : String
  top : TokenType
  subsection : TokenType
  scriptlet : TokenType
  files : TokenType
  deriving DecidableEq, Repr

/-- The `COND_KEYWORDS` descriptor table. -/
def COND_KEYWORDS : List CondKeyword :=
  [⟨"if", .TOP_LEVEL_IF, .SUBSECTION_IF, .SCRIPTLET_IF, .FILES_IF⟩,
   ⟨"ifarch", .TOP_LEVEL_IFARCH, .SUBSECTION_IFARCH, .SCRIPTLET_IFARCH,
    .FILES_IFARCH⟩,
   ⟨"ifnarch", .TOP_LEVEL_IFNARCH, .SUBSECTION_IFNARCH, .SCRIPTLET_IFNARCH,
    .FILES_IFNARCH⟩,
   ⟨"ifos", .TOP_LEVEL_IFOS, .SUBSECTION_IFOS, .SCRIPTLET_IFOS, .FILES_IFOS⟩,
   ⟨"ifnos", .TOP_LEVEL_IFNOS, .SUBSECTION_IFNOS, .SCRIPTLET_IFNOS,
    .FILES_IFNOS⟩]

/-- Model of `select_conditional_token_type`: choose the context token to
emit and update the scanner state, with the lexer position `l` (the input
just past the keyword) available for lookahead. -/
def select_conditional_token_type (s : Scanner) (l : List Char)
    (ctx : CondTokens) : TokenType × Scanner :=
  if ctx.files_valid then (ctx.files, s)
  else if ctx.subsection_valid && !ctx.top_valid && !ctx.scriptlet_valid then
    (ctx.subsection, s)
  else if ctx.scriptlet_valid && !ctx.top_valid && !ctx.subsection_valid then
    (ctx.scriptlet, { s with lookahead_cache_valid := false })
  else if ctx.top_valid && !ctx.subsection_valid && !ctx.scriptlet_valid then
    (ctx.top, { s with lookahead_cache_valid := false })
  else if ctx.top_valid && (ctx.subsection_valid || ctx.scriptlet_valid) then
    let p := conditional_body_has_section_cached s l
    let s2 := { p.2 with lookahead_cache_valid := false }
    if p.1 then (ctx.top, s2)
    else if ctx.subsection_valid then (ctx.subsection, s2)
    else (ctx.scriptlet, s2)
  else if ctx.subsection_valid then (ctx.subsection, s)
  else if ctx.scriptlet_valid then (ctx.scriptlet, s)
  else (ctx.top, s)

/-- C1: for every conditional keyword in the descriptor table and every
admissible combination of the four context variants, the classifier picks
the emitted kind by the claimed priority: files unconditionally; else the
unique admissible one of subsection/scriptlet/top; else, with top and a
narrower variant both admissible, by the body lookahead (section keyword
present gives top, otherwise subsection if admissible else scriptlet);
else the fallback order subsection, scriptlet, top.  Stated for a scanner
state with an invalid cache, so the consulted value is the actual body
lookahead. -/
theorem C1_conditional_classifier_priority :
    ∀ kw ∈ COND_KEYWORDS,
    ∀ (tv sv cv fv : Bool) (s : Scanner) (l : List Char),
      s.lookahead_cache_valid = false →
      (select_conditional_token_type s l
        ⟨kw.top, kw.subsection, kw.scriptlet, kw.files, tv, sv, cv, fv⟩).1 =
      (if fv then kw.files
       else if sv && !cv && !tv then kw.subsection
       else if cv && !sv && !tv then kw.scriptlet
       else if tv && !sv && !cv then kw.top
       else if tv && (sv || cv) then
         (if conditional_body_has_section l then kw.top
          else if sv then kw.subsection else kw.scriptlet)
       else if sv then kw.subsection
       else if cv then kw.scriptlet
       else kw.top) := by
  intro kw _ tv sv cv fv s l h
  obtain ⟨cv', hs'⟩ := s
  cases cv'
  · cases tv <;> cases sv <;> cases cv <;> cases fv <;>
      simp [select_conditional_token_type,
            conditional_body_has_section_cached] <;>
      cases conditional_body_has_section l <;> simp
  · exact absurd h (by simp)

/-- C1 witness: the classifier at the `if` row in the ambiguous
top-and-scriptlet context with an empty body. -/
theorem C1_conditional_classifier_priority_witness :
    (⟨"if", .TOP_LEVEL_IF, .SUBSECTION_IF, .SCRIPTLET_IF, .FILES_IF⟩ :
      CondKeyword) ∈ COND_KEYWORDS ∧
    (⟨false, false⟩ : Scanner).lookahead_cache_valid = false ∧
    (select_conditional_token_type ⟨false, false⟩ []
      ⟨.TOP_LEVEL_IF, .SUBSECTION_IF, .SCRIPTLET_IF, .FILES_IF,
       true, false, true, false⟩).1 =
    (if false then TokenType.FILES_IF
     else if false && !true && !true then TokenType.SUBSECTION_IF
     else if true && !false && !true then TokenType.SCRIPTLET_IF
     else if true && !false && !true then TokenType.TOP_LEVEL_IF
     else if true && (false || true) then
       (if conditional_body_has_section [] then TokenType.TOP_LEVEL_IF
        else if false then TokenType.SUBSECTION_IF
        else TokenType.SCRIPTLET_IF)
     else if false then TokenType.SUBSECTION_IF
     else if true then TokenType.SCRIPTLET_IF
     else TokenType.TOP_LEVEL_IF) :=
  ⟨by decide, by decide,
    C1_conditional_classifier_priority
      ⟨"if", .TOP_LEVEL_IF, .SUBSECTION_IF, .SCRIPTLET_IF, .FILES_IF⟩
      (by decide) true false true false ⟨false, false⟩ [] (by decide)⟩

/-- C3 counterexample: in the files-admissible (exclusive) context the
classifier leaves a previously valid cache flag set — the claim demands
the flag be false afterward, but it is true. -/
theorem C3_counterexample_files_keeps_cache :
    (select_conditional_token_type ⟨true, true⟩ []
      ⟨.TOP_LEVEL_IF, .SUBSECTION_IF, .SCRIPTLET_IF, .FILES_IF,
       false, false, false, true⟩).2.lookahead_cache_valid = true := by
  decide

/-- C3 amended: a full characterization of the scanner state produced by
the classifier.  The cache validity flag is false after the ambiguous
path (the only path that consults the cache) and after the only-scriptlet
and only-top exclusive paths; the files path, the only-subsection path
and the fallback paths leave the scanner state unchanged, so there the
flag is false afterward only if it was false before. -/
theorem C3_cache_single_use_amended :
    ∀ (s : Scanner) (l : List Char) (ctx : CondTokens),
      (select_conditional_token_type s l ctx).2 =
        (if ctx.files_valid then s
         else if ctx.subsection_valid && !ctx.top_valid &&
                 !ctx.scriptlet_valid then s
         else if ctx.scriptlet_valid && !ctx.top_valid &&
                 !ctx.subsection_valid then
           ⟨false, s.lookahead_has_section⟩
         else if ctx.top_valid && !ctx.subsection_valid &&
                 !ctx.scriptlet_valid then
           ⟨false, s.lookahead_has_section⟩
         else if ctx.top_valid && (ctx.subsection_valid ||
                 ctx.scriptlet_valid) then
           ⟨false, (conditional_body_has_section_cached s l).1⟩
         else s) := by
  intro s l ctx
  obtain ⟨a, b⟩ := s
  obtain ⟨t, sub, scr, f, tv, sv, cv, fv⟩ := ctx
  cases tv <;> cases sv <;> cases cv <;> cases fv <;> cases a <;>
    simp [select_conditional_token_type,
          conditional_body_has_section_cached] <;>
    (try (split <;> rfl))

/- ===================================================================== -/
/- Companion scanner (rpmbash/src/scanner.c)                             -/
/- ===================================================================== -/

/-- Model of the rpmbash `is_macro_name_char`. -/
def is_macro_name_char (c : Char) (first : Bool) : Bool :=
  if first then
    ('a' ≤ c && c ≤ 'z') || ('A' ≤ c && c ≤ 'Z') || c = '_'
  else
    ('a' ≤ c && c ≤ 'z') || ('A' ≤ c && c ≤ 'Z') ||
    ('0' ≤ c && c ≤ '9') || c = '_'

/-- Model of the rpmbash `is_simple_macro`: only the length matters (any
identifier of two or more characters starts a statement). -/
def is_simple_macro (name : List Char) (len : Nat) : Bool :=
  (fun _ => decide (2 ≤ len)) name

/-- The blank characters skipped between the newline and a potential
`%` keyword during the force-terminator peek. -/
def bIsBlank (c : Char) : Bool :=
  c = ' ' || c = '\t' || c = '\n'

/-- The rpmbash lexer cursor: remaining input, absolute offset, and the
last committed token boundary. -/
structure BLexer where
  rest : List Char
  off : Nat
  marked : Nat
  deriving DecidableEq, Repr

/-- The `ScanNewlineResult` enumeration of rpmbash/src/scanner.c. -/
inductive ScanNewlineResult where
  | SCAN_NOT_AT_NEWLINE
  | SCAN_MATCHED_KEYWORD
  | SCAN_NO_KEYWORD
  deriving DecidableEq, Repr

/-- The whitespace-skipping loop of the peek: count of consumed blanks and
the remaining input. -/
def skipBlanksCount : List Char → Nat × List Char
  | c :: cs =>
    if bIsBlank c then
      let p := skipBlanksCount cs
      (p.1 + 1, p.2)
    else (0, c :: cs)
  | [] => (0, [])

/-- The keyword-name reading loop of the peek (16-byte buffer, so at most
15 characters are read): final length, remaining input, final offset. -/
def bReadName : List Char → Nat → Nat → Nat × List Char × Nat
  | c :: cs, off, len =>
    if is_macro_name_char c (decide (len = 0)) && decide (len < 15) then
      bReadName cs (off + 1) (len + 1)
    else (len, c :: cs, off)
  | [], off, len => (len, [], off)

/-- Model of `scan_newline_before_rpm_statement`.  On a match the emitted
token is the wrapper's NEWLINE kind and `marked` is the committed
boundary: the position just past the newline character. -/
def scan_newline_before_rpm_statement (nlValid : Bool) (lx : BLexer) :
    ScanNewlineResult × BLexer :=
  if !nlValid || !(decide (lx.rest.headD '\x00' = '\n')) then
    (.SCAN_NOT_AT_NEWLINE, lx)
  else
    let m := lx.off + 1
    let p := skipBlanksCount lx.rest.tail
    let o2 := lx.off + 1 + p.1
    if p.2.headD '\x00' ≠ '%' then (.SCAN_NO_KEYWORD, ⟨p.2, o2, m⟩)
    else
      let q := bReadName p.2.tail (o2 + 1) 0
      if is_simple_macro (p.2.tail.take q.1) q.1 then
        (.SCAN_MATCHED_KEYWORD, ⟨q.2.1, q.2.2, m⟩)
      else (.SCAN_NO_KEYWORD, ⟨q.2.1, q.2.2, m⟩)

/-- Outcome of the companion scanner entry point: a matched NEWLINE token,
a declined scan that must NOT fall through to the wrapped bash tokenizer
(tree-sitter resets the cursor), or verbatim delegation to the wrapped
bash tokenizer from the untouched cursor. -/
inductive RpmBashOutcome where
  | matched (lx : BLexer)
  | noMatchReset
  | delegated (lx : BLexer)
  deriving DecidableEq, Repr

/-- Model of `tree_sitter_rpmbash_external_scanner_scan`. -/
def tree_sitter_rpmbash_external_scanner_scan (nlValid : Bool)
    (lx : BLexer) : RpmBashOutcome :=
  match scan_newline_before_rpm_statement nlValid lx with
  | (.SCAN_MATCHED_KEYWORD, lx') => .matched lx'
  | (.SCAN_NO_KEYWORD, _) => .noMatchReset
  | (.SCAN_NOT_AT_NEWLINE, _) => .delegated lx

/-- Helper: skipping blanks walks over exactly the leading blank run. -/
lemma skipBlanksCount_append (ws : List Char) :
    ∀ rest, ws.all bIsBlank = true → bIsBlank (rest.headD '\x00') = false →
      skipBlanksCount (ws ++ rest) = (ws.length, rest) := by
  induction ws with
  | nil =>
    intro rest _ hr
    cases rest with
    | nil => rfl
    | cons c cs =>
      simp only [List.headD_cons] at hr
      simp [skipBlanksCount, hr]
  | cons c ws ih =>
    intro rest h hr
    simp only [List.all_cons, Bool.and_eq_true] at h
    simp [skipBlanksCount, h.1, ih rest h.2 hr]

/-- Helper: the name-reading loop never decreases the running length. -/
lemma bReadName_len_ge : ∀ (l : List Char) (off len : Nat),
    len ≤ (bReadName l off len).1 := by
  intro l
  induction l with
  | nil => intro off len; simp [bReadName]
  | cons c cs ih =>
    intro off len
    by_cases h : (is_macro_name_char c (decide (len = 0)) &&
        decide (len < 15)) = true
    · simp only [bReadName, h, if_true]
      exact le_trans (Nat.le_succ len) (ih (off + 1) (len + 1))
    · simp [bReadName, h]

/-- C5: when the cursor is at a newline, the NEWLINE kind is admissible,
and the next non-blank content (after the newline and any further blanks)
is a `%`-prefixed identifier of at least two characters, the companion
scanner matches a NEWLINE token whose committed boundary lies exactly one
character past the start (the token spans only the newline and the
directive is left unconsumed); when the identifier has fewer than two
characters, or no `%` follows, the scanner reports no-match without
delegating to the wrapped bash tokenizer in that invocation. -/
theorem C5_force_terminator_peek :
    (∀ (pre m : Nat) (ws : List Char) (c1 c2 : Char) (tl : List Char),
      ws.all bIsBlank = true →
      is_macro_name_char c1 true = true →
      is_macro_name_char c2 false = true →
      ∃ r o, tree_sitter_rpmbash_external_scanner_scan true
          ⟨'\n' :: (ws ++ '%' :: c1 :: c2 :: tl), pre, m⟩ =
        .matched ⟨r, o, pre + 1⟩) ∧
    (∀ (pre m : Nat) (ws : List Char) (c1 : Char) (tl : List Char),
      ws.all bIsBlank = true →
      is_macro_name_char c1 true = true →
      is_macro_name_char (tl.headD '\x00') false = false →
      tree_sitter_rpmbash_external_scanner_scan true
          ⟨'\n' :: (ws ++ '%' :: c1 :: tl), pre, m⟩ = .noMatchReset) ∧
    (∀ (pre m : Nat) (ws : List Char) (c : Char) (tl : List Char),
      ws.all bIsBlank = true →
      is_macro_name_char c true = false →
      tree_sitter_rpmbash_external_scanner_scan true
          ⟨'\n' :: (ws ++ '%' :: c :: tl), pre, m⟩ = .noMatchReset) ∧
    (∀ (pre m : Nat) (ws tl : List Char),
      ws.all bIsBlank = true →
      bIsBlank (tl.headD '\x00') = false →
      tl.headD '\x00' ≠ '%' →
      tree_sitter_rpmbash_external_scanner_scan true
          ⟨'\n' :: (ws ++ tl), pre, m⟩ = .noMatchReset) := by
  refine ⟨?_, ?_, ?_, ?_⟩
  · intro pre m ws c1 c2 tl hws h1 h2
    have hskip := skipBlanksCount_append ws ('%' :: c1 :: c2 :: tl) hws
      (by simp [bIsBlank])
    have e1 : ∀ off, bReadName (c1 :: c2 :: tl) off 0 =
        bReadName (c2 :: tl) (off + 1) 1 :=
      fun off => by simp [bReadName, h1]
    have e2 : ∀ off, bReadName (c2 :: tl) off 1 =
        bReadName tl (off + 1) 2 :=
      fun off => by simp [bReadName, h2]
    have hlen : ∀ off, 2 ≤ (bReadName (c1 :: c2 :: tl) off 0).1 := by
      intro off; rw [e1, e2]; exact bReadName_len_ge tl _ 2
    simp [tree_sitter_rpmbash_external_scanner_scan,
          scan_newline_before_rpm_statement, hskip, is_simple_macro, hlen]
  · intro pre m ws c1 tl hws h1 h2
    have hskip := skipBlanksCount_append ws ('%' :: c1 :: tl) hws
      (by simp [bIsBlank])
    have hread : ∀ off, bReadName (c1 :: tl) off 0 = (1, tl, off + 1) := by
      intro off
      cases tl with
      | nil => simp [bReadName, h1]
      | cons d ds =>
        simp only [List.headD_cons] at h2
        simp [bReadName, h1, h2]
    simp [tree_sitter_rpmbash_external_scanner_scan,
          scan_newline_before_rpm_statement, hskip, hread, is_simple_macro]
  · intro pre m ws c tl hws h1
    have hskip := skipBlanksCount_append ws ('%' :: c :: tl) hws
      (by simp [bIsBlank])
    have hread : ∀ off, bReadName (c :: tl) off 0 = (0, c :: tl, off) := by
      intro off; simp [bReadName, h1]
    simp [tree_sitter_rpmbash_external_scanner_scan,
          scan_newline_before_rpm_statement, hskip, hread, is_simple_macro]
  · intro pre m ws tl hws hb hp
    have hskip := skipBlanksCount_append ws tl hws hb
    cases tl with
    | nil =>
      rw [List.append_nil] at hskip
      simp [tree_sitter_rpmbash_external_scanner_scan,
            scan_newline_before_rpm_statement, hskip]
    | cons d ds =>
      simp only [List.headD_cons] at hp
      simp [tree_sitter_rpmbash_external_scanner_scan,
            scan_newline_before_rpm_statement, hskip, hp]

/-- C5 witness: the matched case at a concrete input, with the boundary
just past the newline. -/
theorem C5_force_terminator_peek_witness :
    ([] : List Char).all bIsBlank = true ∧
    is_macro_name_char 'i' true = true ∧
    is_macro_name_char 'f' false = true ∧
    ∃ r o, tree_sitter_rpmbash_external_scanner_scan true
        ⟨'\n' :: (([] : List Char) ++ '%' :: 'i' :: 'f' :: []), 0, 0⟩ =
      .matched ⟨r, o, 1⟩ :=
  ⟨by decide, by decide, by decide,
    C5_force_terminator_peek.1 0 0 [] 'i' 'f' []
      (by decide) (by decide) (by decide)⟩

/- ===================================================================== -/
/- Main scan (rpmspec_scan)                                              -/
/- ===================================================================== -/

/-- Model of the whitespace/newline handling at the top of `rpmspec_scan`
(step 0): skip white space, emitting an explicit NEWLINE token at a line
break when that kind is admissible.  Returns the emitted token (if any)
and the remaining input. -/
def skipSpacesEmit (nlValid : Bool) : List Char → Option TokenType × List Char
  | c :: cs =>
    if isSpaceC c then
      if c = '\n' then
        if nlValid then (some .NEWLINE, cs) else skipSpacesEmit nlValid cs
      else if c = '\r' then
        if nlValid then
          (some .NEWLINE, if cs.headD '\x00' = '\n' then cs.tail else cs)
        else skipSpacesEmit nlValid cs
      else skipSpacesEmit nlValid cs
    else (none, c :: cs)
  | [] => (none, [])

/-- The `struct SectionKeyword` of scanner.c (the length field is implied
by the name). -/
structure SectionKeyword where
  name : String
  token : TokenType
  deriving DecidableEq, Repr

/-- The `SECTION_KEYWORDS_MAP` table. -/
def SECTION_KEYWORDS_MAP : List SectionKeyword :=
  [⟨"prep", .SECTION_PREP⟩,
   ⟨"generate_buildrequires", .SECTION_GENERATE_BUILDREQUIRES⟩,
   ⟨"conf", .SECTION_CONF⟩,
   ⟨"build", .SECTION_BUILD⟩,
   ⟨"install", .SECTION_INSTALL⟩,
   ⟨"check", .SECTION_CHECK⟩,
   ⟨"clean", .SECTION_CLEAN⟩]

/-- Model of `lookup_section_keyword`. -/
def lookup_section_keyword (id : List Char) : Option SectionKeyword :=
  SECTION_KEYWORDS_MAP.find? fun kw => strequal kw.name id

/-- Model of `any_conditional_valid`. -/
def any_conditional_valid (v : Valids) : Bool :=
  COND_KEYWORDS.any fun kw =>
    v kw.top || v kw.subsection || v kw.scriptlet || v kw.files

/-- Model of `any_section_token_valid`. -/
def any_section_token_valid (v : Valids) : Bool :=
  v .SECTION_PREP || v .SECTION_GENERATE_BUILDREQUIRES ||
  v .SECTION_CONF || v .SECTION_BUILD || v .SECTION_INSTALL ||
  v .SECTION_CHECK || v .SECTION_CLEAN

/-- Model of `in_scriptlet_context`. -/
def in_scriptlet_context (v : Valids) : Bool :=
  v .SCRIPTLET_IF || v .SCRIPTLET_IFARCH || v .SCRIPTLET_IFNARCH ||
  v .SCRIPTLET_IFOS || v .SCRIPTLET_IFNOS

/-- Model of `is_cond_keyword`. -/
def is_cond_keyword (id : List Char) : Bool :=
  COND_KEYWORDS.any fun kw => strequal kw.name id

/-- Model of `try_scan_conditional`. -/
def try_scan_conditional (s : Scanner) (v : Valids) (rest : List Char)
    (kwid : List Char) : Option (TokenType × Scanner) :=
  match COND_KEYWORDS.find? (fun kw => strequal kw.name kwid) with
  | none => none
  | some kw =>
    if !(v kw.top) && !(v kw.subsection) && !(v kw.scriptlet) &&
       !(v kw.files) then none
    else
      some (select_conditional_token_type s rest
        ⟨kw.top, kw.subsection, kw.scriptlet, kw.files,
         v kw.top, v kw.subsection, v kw.scriptlet, v kw.files⟩)

/-- Model of `try_scan_parametric_macro`. -/
def try_scan_parametric_macro (allow_parametric : Bool) (rest : List Char)
    (kwid : List Char) : Option TokenType :=
  if !allow_parametric then none
  else if is_keyword kwid || is_files_keyword kwid ||
          is_patch_legacy kwid || is_nil kwid then none
  else if is_horizontal_space (rest.headD '\x00') then
    some .PARAMETRIC_MACRO_NAME
  else none

/-- Model of `consume_percent_and_identifier`: consume the `%` and the
maximal identifier after it.  On failure the `%` has still been consumed
(the C lexer cannot rewind), which the caller's fall-through relies on. -/
def consume_percent_and_identifier : List Char → Option (List Char) × List Char
  | '%' :: cs =>
    if is_identifier_start (cs.headD '\x00') then
      (some (cs.takeWhile is_identifier_char), cs.dropWhile is_identifier_char)
    else (none, cs)
  | l => (none, l)

/-- Steps 2 and 3 of `rpmspec_scan`: plain macro matching (which, when any
macro kind is admissible, returns whatever `scan_macro'` produces without
falling through) and then the greedy content scanners. -/
def rpmspec_stage2 (s : Scanner) (v : Valids) (l2 : List Char) :
    Option TokenType × Scanner :=
  if v .SIMPLE_MACRO || v .NEGATED_MACRO || v .SPECIAL_MACRO ||
     v .ESCAPED_PERCENT then
    ((scan_macro' v l2).map Prod.fst, s)
  else if v .EXPAND_CODE && (scan_expand_content l2).1 then
    (some .EXPAND_CODE, s)
  else if v .SCRIPT_CODE && (scan_shell_content l2).1 then
    (some .SCRIPT_CODE, s)
  else (none, s)

/-- The section-header and parametric-macro checks of step 1 of
`rpmspec_scan` (run after the conditional check has declined), falling
through to `rpmspec_stage2` from the cursor position after the
identifier.  The section token is emitted only under the word-boundary
check `!is_identifier_char(lexer->lookahead)`. -/
def rpmspec_stage1_sections (s : Scanner) (v : Valids)
    (rest kwid : List Char) : Option TokenType × Scanner :=
  match (if any_section_token_valid v &&
            !(is_identifier_char (rest.headD '\x00')) then
           (match lookup_section_keyword kwid with
            | some skw => if v skw.token then some skw.token else none
            | none => none)
         else none) with
  | some t => (some t, s)
  | none =>
    match (if v .PARAMETRIC_MACRO_NAME then
             try_scan_parametric_macro (!(in_scriptlet_context v)) rest kwid
           else none) with
    | some t => (some t, s)
    | none => rpmspec_stage2 s v rest

/-- The keyword dispatch of step 1 of `rpmspec_scan`, once `%` and an
identifier have been consumed: conditional first, then the section and
parametric checks. -/
def rpmspec_stage1_ident (s : Scanner) (v : Valids)
    (rest kwid : List Char) : Option TokenType × Scanner :=
  match (if any_conditional_valid v && is_cond_keyword kwid then
           try_scan_conditional s v rest kwid
         else none) with
  | some (t, s') => (some t, s')
  | none => rpmspec_stage1_sections s v rest kwid

/-- Step 1 of `rpmspec_scan`: the percent-prefixed dispatch (conditional,
then section header with word-boundary check, then parametric macro),
falling through to `rpmspec_stage2` from the current cursor position. -/
def rpmspec_stage1 (s : Scanner) (v : Valids) (l0 : List Char) :
    Option TokenType × Scanner :=
  if any_conditional_valid v || v .PARAMETRIC_MACRO_NAME ||
     any_section_token_valid v then
    let l1 := l0.dropWhile is_horizontal_space
    if l1.headD '\x00' = '%' then
      match consume_percent_and_identifier l1 with
      | (some kwid, rest) => rpmspec_stage1_ident s v rest kwid
      | (none, rest) => rpmspec_stage2 s v rest
    else rpmspec_stage2 s v l1
  else rpmspec_stage2 s v l0

/-- Model of `rpmspec_scan`: step 0 (whitespace/newline), then the
percent-prefixed dispatch, then macro matching and content capture. -/
def rpmspec_scan (s : Scanner) (v : Valids) (l : List Char) :
    Option TokenType × Scanner :=
  if !(v .EXPAND_CODE) && !(v .SCRIPT_CODE) then
    match skipSpacesEmit (v .NEWLINE) l with
    | (some t, _) => (some t, s)
    | (none, l0) => rpmspec_stage1 s v l0
  else rpmspec_stage1 s v l

/-- The seven section-header kinds. -/
def isSectionTokenKind (t : TokenType) : Bool :=
  match t with
  | .SECTION_PREP | .SECTION_GENERATE_BUILDREQUIRES | .SECTION_CONF
  | .SECTION_BUILD | .SECTION_INSTALL | .SECTION_CHECK
  | .SECTION_CLEAN => true
  | _ => false

/-- Helper: the classifier only ever returns one of the four kinds of the
descriptor it was given. -/
lemma select_result_mem (s : Scanner) (l : List Char) (ctx : CondTokens) :
    (select_conditional_token_type s l ctx).1 = ctx.files ∨
    (select_conditional_token_type s l ctx).1 = ctx.subsection ∨
    (select_conditional_token_type s l ctx).1 = ctx.scriptlet ∨
    (select_conditional_token_type s l ctx).1 = ctx.top := by
  simp only [select_conditional_token_type]
  split_ifs <;> simp

/-- Helper: a conditional token emitted by `try_scan_conditional` is never
a section-header kind. -/
lemma try_scan_conditional_kind (s : Scanner) (v : Valids)
    (rest kwid : List Char) (t : TokenType) (s' : Scanner)
    (h : try_scan_conditional s v rest kwid = some (t, s')) :
    isSectionTokenKind t = false := by
  unfold try_scan_conditional at h
  cases hf : COND_KEYWORDS.find? (fun kw => strequal kw.name kwid) with
  | none => rw [hf] at h; simp at h
  | some kw =>
    rw [hf] at h
    have hmem : kw ∈ COND_KEYWORDS := List.mem_of_find?_eq_some hf
    by_cases hv : (!(v kw.top) && !(v kw.subsection) && !(v kw.scriptlet) &&
        !(v kw.files)) = true
    · simp [hv] at h
    · simp only [Bool.not_eq_true] at hv
      simp only [hv, Bool.false_eq_true, if_false] at h
      injection h with h
      have h1 : (select_conditional_token_type s rest
          ⟨kw.top, kw.subsection, kw.scriptlet, kw.files,
           v kw.top, v kw.subsection, v kw.scriptlet, v kw.files⟩).1 = t := by
        rw [h]
      have hall : ∀ kw ∈ COND_KEYWORDS,
          isSectionTokenKind kw.files = false ∧
          isSectionTokenKind kw.subsection = false ∧
          isSectionTokenKind kw.scriptlet = false ∧
          isSectionTokenKind kw.top = false := by decide
      obtain ⟨w1, w2, w3, w4⟩ := hall kw hmem
      rcases select_result_mem s rest
          ⟨kw.top, kw.subsection, kw.scriptlet, kw.files,
           v kw.top, v kw.subsection, v kw.scriptlet, v kw.files⟩ with
        hk | hk | hk | hk <;> rw [h1] at hk <;> rw [hk] <;> assumption

set_option maxHeartbeats 1000000 in
/-- Helper: a token emitted by `scan_macro'` is never a section-header
kind. -/
lemma scan_macro_kind (v : Valids) (l : List Char) (t : TokenType) (n : Nat)
    (h : scan_macro' v l = some (t, n)) : isSectionTokenKind t = false := by
  cases l with
  | nil => simp [scan_macro'] at h
  | cons c cs =>
    simp only [scan_macro'] at h
    split_ifs at h <;>
      first
        | exact Option.noConfusion h
        | (injection h with h
           injection h with h1 h2
           rw [← h1]
           rfl)

/-- Helper: a token emitted by the macro/content stages is never a
section-header kind. -/
lemma rpmspec_stage2_kind (s : Scanner) (v : Valids) (l : List Char)
    (k : TokenType) (h : (rpmspec_stage2 s v l).1 = some k) :
    isSectionTokenKind k = false := by
  unfold rpmspec_stage2 at h
  by_cases h1 : (v .SIMPLE_MACRO || v .NEGATED_MACRO || v .SPECIAL_MACRO ||
      v .ESCAPED_PERCENT) = true
  · rw [if_pos h1] at h
    cases hm : scan_macro' v l with
    | none => rw [hm] at h; simp at h
    | some p =>
      obtain ⟨t, n⟩ := p
      rw [hm] at h
      simp only [Option.map, Prod.fst] at h
      injection h with h
      rw [← h]
      exact scan_macro_kind v l t n hm
  · rw [if_neg h1] at h
    by_cases h2 : (v .EXPAND_CODE && (scan_expand_content l).1) = true
    · rw [if_pos h2] at h
      injection h with h
      rw [← h]
      rfl
    · rw [if_neg h2] at h
      by_cases h3 : (v .SCRIPT_CODE && (scan_shell_content l).1) = true
      · rw [if_pos h3] at h
        injection h with h
        rw [← h]
        rfl
      · rw [if_neg h3] at h
        simp at h

/-- Helper: a successful section-keyword lookup returns a table row whose
name is exactly the looked-up identifier. -/
lemma lookup_section_keyword_some (id : List Char) (kw : SectionKeyword)
    (h : lookup_section_keyword id = some kw) :
    kw ∈ SECTION_KEYWORDS_MAP ∧ kw.name.data = id := by
  refine ⟨List.mem_of_find?_eq_some h, ?_⟩
  have := List.find?_some h
  simpa [strequal] using this

/-- Helper: no section-keyword name is a proper prefix of another. -/
lemma section_names_antichain :
    ∀ kw1 ∈ SECTION_KEYWORDS_MAP, ∀ kw2 ∈ SECTION_KEYWORDS_MAP,
      kw2.name.data.take kw1.name.data.length = kw1.name.data →
      kw1.name.data = kw2.name.data := by decide

/-- Helper: an identifier that strictly extends a section-keyword name is
not itself a section-keyword name, so the lookup fails. -/
lemma lookup_of_proper_extension (id : List Char)
    (H : ∃ kw ∈ SECTION_KEYWORDS_MAP,
      id.take kw.name.data.length = kw.name.data ∧ id ≠ kw.name.data) :
    lookup_section_keyword id = none := by
  obtain ⟨kw, hmem, hpre, hne⟩ := H
  cases hl : lookup_section_keyword id with
  | none => rfl
  | some kw2 =>
    obtain ⟨hmem2, heq⟩ := lookup_section_keyword_some id kw2 hl
    subst heq
    exact absurd (section_names_antichain kw hmem kw2 hmem2 hpre)
      (fun hh => hne hh.symm)

/-- Helper: step 0 does nothing on a non-space first character. -/
lemma skipSpacesEmit_nonspace (b : Bool) (c : Char) (cs : List Char)
    (h : isSpaceC c = false) :
    skipSpacesEmit b (c :: cs) = (none, c :: cs) := by
  simp [skipSpacesEmit, h]

/-- Helper: on input starting with `%`, the scan reduces to step 1. -/
lemma rpmspec_scan_percent (s : Scanner) (v : Valids) (tl : List Char) :
    rpmspec_scan s v ('%' :: tl) = rpmspec_stage1 s v ('%' :: tl) := by
  unfold rpmspec_scan
  by_cases h : (!(v .EXPAND_CODE) && !(v .SCRIPT_CODE)) = true
  · rw [if_pos h, skipSpacesEmit_nonspace _ '%' tl (by decide)]
  · rw [if_neg h]

/-- Helper: a parametric-macro match only ever emits the
parametric-macro-name kind. -/
lemma try_scan_parametric_kind (a : Bool) (rest kwid : List Char)
    (t : TokenType) (h : try_scan_parametric_macro a rest kwid = some t) :
    t = .PARAMETRIC_MACRO_NAME := by
  unfold try_scan_parametric_macro at h
  split_ifs at h <;> simp_all

/-- Helper: when the section-keyword lookup fails, the section/parametric
stage never emits a section-header kind. -/
lemma rpmspec_stage1_sections_kind (s : Scanner) (v : Valids)
    (rest kwid : List Char) (k : TokenType)
    (hlook : lookup_section_keyword kwid = none)
    (h : (rpmspec_stage1_sections s v rest kwid).1 = some k) :
    isSectionTokenKind k = false := by
  unfold rpmspec_stage1_sections at h
  rw [hlook] at h
  simp only [ite_self] at h
  by_cases hp : v .PARAMETRIC_MACRO_NAME = true
  · rw [if_pos hp] at h
    cases hpar : try_scan_parametric_macro (!(in_scriptlet_context v))
        rest kwid with
    | some t =>
      rw [hpar] at h
      dsimp only at h
      injection h with h
      rw [← h, try_scan_parametric_kind _ _ _ _ hpar]
      rfl
    | none =>
      rw [hpar] at h
      dsimp only at h
      exact rpmspec_stage2_kind _ _ _ _ h
  · rw [if_neg hp] at h
    dsimp only at h
    exact rpmspec_stage2_kind _ _ _ _ h

/-- Helper: when the section-keyword lookup fails, the whole keyword
dispatch never emits a section-header kind. -/
lemma rpmspec_stage1_ident_kind (s : Scanner) (v : Valids)
    (rest kwid : List Char) (k : TokenType)
    (hlook : lookup_section_keyword kwid = none)
    (h : (rpmspec_stage1_ident s v rest kwid).1 = some k) :
    isSectionTokenKind k = false := by
  unfold rpmspec_stage1_ident at h
  by_cases hA : (any_conditional_valid v && is_cond_keyword kwid) = true
  · rw [if_pos hA] at h
    cases htry : try_scan_conditional s v rest kwid with
    | some p =>
      obtain ⟨t2, s2⟩ := p
      rw [htry] at h
      dsimp only at h
      injection h with h
      rw [← h]
      exact try_scan_conditional_kind s v rest kwid t2 s2 htry
    | none =>
      rw [htry] at h
      dsimp only at h
      exact rpmspec_stage1_sections_kind s v rest kwid k hlook h
  · rw [if_neg hA] at h
    dsimp only at h
    exact rpmspec_stage1_sections_kind s v rest kwid k hlook h

/-- Helper: when the maximal identifier after `%` strictly extends a
section-keyword name, the scan never emits a section-header kind. -/
lemma rpmspec_scan_section_extension (s : Scanner) (v : Valids)
    (tl : List Char) (k : TokenType)
    (H : ∃ kw ∈ SECTION_KEYWORDS_MAP,
      (tl.takeWhile is_identifier_char).take kw.name.data.length =
        kw.name.data ∧
      tl.takeWhile is_identifier_char ≠ kw.name.data)
    (hscan : (rpmspec_scan s v ('%' :: tl)).1 = some k) :
    isSectionTokenKind k = false := by
  have hlook : lookup_section_keyword (tl.takeWhile is_identifier_char) =
      none := lookup_of_proper_extension _ H
  rw [rpmspec_scan_percent] at hscan
  unfold rpmspec_stage1 at hscan
  by_cases hc : (any_conditional_valid v || v .PARAMETRIC_MACRO_NAME ||
      any_section_token_valid v) = true
  swap
  · rw [if_neg hc] at hscan
    exact rpmspec_stage2_kind _ _ _ _ hscan
  rw [if_pos hc] at hscan
  have hdrop : List.dropWhile is_horizontal_space ('%' :: tl) = '%' :: tl := by
    rw [List.dropWhile_cons]
    simp [show is_horizontal_space '%' = false from by decide]
  simp only [hdrop, List.headD_cons] at hscan
  rw [if_pos trivial] at hscan
  by_cases hid : is_identifier_start (tl.head?.getD '\x00') = true
  · have hcons : consume_percent_and_identifier ('%' :: tl) =
        (some (tl.takeWhile is_identifier_char),
         tl.dropWhile is_identifier_char) := by
      simp [consume_percent_and_identifier, hid]
    rw [hcons] at hscan
    dsimp only at hscan
    exact rpmspec_stage1_ident_kind s v _ _ k hlook hscan
  · have hcons : consume_percent_and_identifier ('%' :: tl) = (none, tl) := by
      simp only [Bool.not_eq_true] at hid
      simp [consume_percent_and_identifier, hid]
    rw [hcons] at hscan
    dsimp only at hscan
    exact rpmspec_stage2_kind _ _ _ _ hscan

/-- A concrete admissible set: the `%conf` section header, parametric
macro names and simple macros are admissible, nothing else. -/
def sectionDemoValids : Valids := fun t =>
  match t with
  | .SECTION_CONF => true
  | .PARAMETRIC_MACRO_NAME => true
  | .SIMPLE_MACRO => true
  | _ => false

/-- C10: a section-header kind is emitted only at a word boundary: for
every input whose maximal identifier after `%` strictly extends a section
keyword (such as `%configure` over `%conf`), no section-header token is
produced; concretely, with the `%conf` section header admissible,
`%configure --prefix` yields the parametric-macro kind (the fall-through
stage) while `%conf --prefix` yields the section-header kind. -/
theorem C10_section_word_boundary :
    (∀ (s : Scanner) (v : Valids) (tl : List Char) (k : TokenType),
      (∃ kw ∈ SECTION_KEYWORDS_MAP,
        (tl.takeWhile is_identifier_char).take kw.name.data.length =
          kw.name.data ∧
        tl.takeWhile is_identifier_char ≠ kw.name.data) →
      (rpmspec_scan s v ('%' :: tl)).1 = some k →
      isSectionTokenKind k = false) ∧
    (rpmspec_scan ⟨false, false⟩ sectionDemoValids
      ("%configure --prefix".data)).1 = some .PARAMETRIC_MACRO_NAME ∧
    (rpmspec_scan ⟨false, false⟩ sectionDemoValids
      ("%conf --prefix".data)).1 = some .SECTION_CONF := by
  exact ⟨rpmspec_scan_section_extension, by decide, by decide⟩

/-- C10 witness: the word-boundary conjunct at the `%configure` input. -/
theorem C10_section_word_boundary_witness :
    (("configure --prefix".data.takeWhile is_identifier_char).take 4 =
      "conf".data) ∧
    isSectionTokenKind TokenType.PARAMETRIC_MACRO_NAME = false :=
  ⟨by decide,
    C10_section_word_boundary.1 ⟨false, false⟩ sectionDemoValids
      ("configure --prefix".data) .PARAMETRIC_MACRO_NAME
      ⟨⟨"conf", .SECTION_CONF⟩, by decide, by decide, by decide⟩
      (by decide)⟩
